import Mathlib

/-
Verification of the VoIP call-session engine (static/src/js/voip_sip_client.js).
Each definition is a shallow embedding of the corresponding JavaScript function;
theorems settle the behavioural claims of the design spec against them.
-/

namespace Voip

/-! ## Indicator tones (playRingbackTone / playBusyTone / playRingTone / stopAllTones) -/

structure Tone where
  playing : Bool
  currentTime : Nat
deriving DecidableEq

structure Tones where
  ringbackTone : Tone
  busyTone : Tone
  ringTone : Tone
deriving DecidableEq

def pausedTone : Tone := { playing := false, currentTime := 0 }

/-- Tones as created by initCallTones: audio elements exist but are not playing. -/
def initTones : Tones :=
  { ringbackTone := pausedTone, busyTone := pausedTone, ringTone := pausedTone }

/-- stopAllTones pauses all three audio elements and rewinds each to position 0. -/
def stopAllTones (_t : Tones) : Tones :=
  { ringbackTone := { playing := false, currentTime := 0 },
    busyTone := { playing := false, currentTime := 0 },
    ringTone := { playing := false, currentTime := 0 } }

/-- playRingbackTone: stopAllTones first, then start ringback playback. -/
def playRingbackTone (t : Tones) : Tones :=
  let t1 := stopAllTones t
  { t1 with ringbackTone := { t1.ringbackTone with playing := true } }

/-- playBusyTone: stopAllTones first, then start busy playback. -/
def playBusyTone (t : Tones) : Tones :=
  let t1 := stopAllTones t
  { t1 with busyTone := { t1.busyTone with playing := true } }

/-- playRingTone: stopAllTones first, then start ring playback. -/
def playRingTone (t : Tones) : Tones :=
  let t1 := stopAllTones t
  { t1 with ringTone := { t1.ringTone with playing := true } }

inductive ToneOp
  | ringback
  | busy
  | ring
  | stopAll
deriving DecidableEq

def applyToneOp (t : Tones) : ToneOp → Tones
  | .ringback => playRingbackTone t
  | .busy => playBusyTone t
  | .ring => playRingTone t
  | .stopAll => stopAllTones t

def applyToneOps (t : Tones) (ops : List ToneOp) : Tones :=
  ops.foldl applyToneOp t

/-- Number of indicator tones currently playing. -/
def playingCount (t : Tones) : Nat :=
  (if t.ringbackTone.playing then 1 else 0) +
  (if t.busyTone.playing then 1 else 0) +
  (if t.ringTone.playing then 1 else 0)

/-! ## Retry policy (constructor fields and scheduleRetry) -/

structure RetryState where
  retryCount : Nat
  maxRetries : Nat
  retryDelay : Nat
deriving DecidableEq

/-- Constructor initialisation: retryCount = 0, maxRetries = 3, retryDelay = 1000 ms. -/
def initRetryState : RetryState :=
  { retryCount := 0, maxRetries := 3, retryDelay := 1000 }

/-- scheduleRetry: below the bound, increments retryCount and schedules a retry after
retryDelay * 2 ^ (retryCount - 1) ms; at the bound, schedules nothing and resets the
counter. The `Option Nat` is the scheduled delay, `none` when no retry is scheduled. -/
def scheduleRetry (s : RetryState) : RetryState × Option Nat :=
  if s.retryCount < s.maxRetries then
    let newCount := s.retryCount + 1
    ({ s with retryCount := newCount }, some (s.retryDelay * 2 ^ (newCount - 1)))
  else
    ({ s with retryCount := 0 }, none)

/-- State after `n` consecutive retryable errors, each invoking scheduleRetry. -/
def scheduleRetryIter (s : RetryState) : Nat → RetryState
  | 0 => s
  | n + 1 => (scheduleRetry (scheduleRetryIter s n)).1

/-! ## Recording upload (saveRecording and its guard flags) -/

inductive FetchOutcome
  | ok
  | fail
deriving DecidableEq

/-- The recording-related fields of the client that saveRecording reads and writes.
Chunks are abstracted to their byte sizes. -/
structure RecState where
  recordingSaved : Bool
  recordingSaving : Bool
  recordedChunks : List Nat
deriving DecidableEq

/-- saveRecording, as one sequential run whose fetch resolves with `outcome`:
returns early (no request) when recordingSaved or recordingSaving is set, or when
there are no chunks; otherwise sets recordingSaving before the request, marks
recordingSaved on an ok response, swallows errors, and always clears
recordingSaving in the finally block. The Bool reports whether a POST was issued. -/
def saveRecording (s : RecState) (outcome : FetchOutcome) : RecState × Bool :=
  if s.recordingSaved || s.recordingSaving then (s, false)
  else if s.recordedChunks.isEmpty then (s, false)
  else
    let s1 := { s with recordingSaving := true }
    match outcome with
    | .ok => ({ s1 with recordingSaved := true, recordingSaving := false }, true)
    | .fail => ({ s1 with recordingSaving := false }, true)

/-- One call session's upload state, extended with the number of POST requests
currently awaiting a response and the number that have completed successfully. -/
structure UploadSys where
  recordingSaved : Bool
  recordingSaving : Bool
  recordedChunks : List Nat
  requestsInFlight : Nat
  successfulUploads : Nat
deriving DecidableEq

/-- Session start (startRecording): flags cleared, chunk buffer reset. -/
def initUploadSys : UploadSys :=
  { recordingSaved := false, recordingSaving := false, recordedChunks := [],
    requestsInFlight := 0, successfulUploads := 0 }

/-- Interleaved events of one call session: a saveRecording invocation runs its
synchronous prefix atomically (JavaScript is single threaded up to the awaited
fetch); an in-flight fetch later resolves ok or fails; ondataavailable appends a
non-empty chunk; and the onstop handler's completion callbacks — the .then on
success and the .catch on error, which run after the awaited saveRecording
invocation settles — reset recordingSaved and recordingSaving to false while
recordedChunks is never cleared. The `withReset` parameter selects whether
this last event is included; `UploadStep true` is the program, `UploadStep
false` the executions in which the reset does not occur. -/
inductive UploadStep (withReset : Bool) : UploadSys → UploadSys → Prop
  | callSave (s : UploadSys) (h1 : s.recordingSaved = false) (h2 : s.recordingSaving = false)
      (h3 : s.recordedChunks ≠ []) :
      UploadStep withReset s { s with recordingSaving := true,
                                      requestsInFlight := s.requestsInFlight + 1 }
  | callSaveGuarded (s : UploadSys)
      (h : s.recordingSaved = true ∨ s.recordingSaving = true ∨ s.recordedChunks = []) :
      UploadStep withReset s s
  | fetchOk (s : UploadSys) (h : 0 < s.requestsInFlight) :
      UploadStep withReset s { s with recordingSaved := true, recordingSaving := false,
                                      requestsInFlight := s.requestsInFlight - 1,
                                      successfulUploads := s.successfulUploads + 1 }
  | fetchFail (s : UploadSys) (h : 0 < s.requestsInFlight) :
      UploadStep withReset s { s with recordingSaving := false,
                                      requestsInFlight := s.requestsInFlight - 1 }
  | chunk (s : UploadSys) (sz : Nat) (h : 0 < sz) :
      UploadStep withReset s { s with recordedChunks := s.recordedChunks ++ [sz] }
  | resetAfterSave (s : UploadSys) (h : withReset = true) :
      UploadStep withReset s { s with recordingSaved := false, recordingSaving := false }

inductive UploadReachable (withReset : Bool) : UploadSys → Prop
  | init : UploadReachable withReset initUploadSys
  | step {s s2 : UploadSys} : UploadReachable withReset s → UploadStep withReset s s2 →
      UploadReachable withReset s2

/-- Inductive invariant: the saving flag counts the in-flight requests and the
saved flag counts the successful uploads. -/
def uploadInv (s : UploadSys) : Prop :=
  s.requestsInFlight = (if s.recordingSaving then 1 else 0) ∧
  s.successfulUploads = (if s.recordingSaved then 1 else 0) ∧
  (s.recordingSaved = true → s.recordingSaving = false)

/-! ## Outbound call rejection (makeCall: invite requestDelegate.onReject and catch) -/

/-- Substring test on character lists (JavaScript String.prototype.includes). -/
def hasSub : List Char → List Char → Bool
  | [], needle => needle.isEmpty
  | c :: t, needle => needle.isPrefixOf (c :: t) || hasSub t needle

def strIncludes (hay needle : String) : Bool := hasSub hay.toList needle.toList

/-- The user-facing rejection message makeCall's onReject derives from the final
response status code, falling back to the response's reason phrase. -/
def rejectionReason (statusCode : Nat) (reasonPhrase : String) : String :=
  if statusCode = 503 then "Service Unavailable"
  else if statusCode = 486 then "Busy Here"
  else if statusCode = 404 then "Not Found"
  else if statusCode = 408 then "Request Timeout"
  else if statusCode = 480 then "Temporarily Unavailable"
  else reasonPhrase

/-- onReject plays the busy tone for these status codes after stopping all tones. -/
def busyToneOnReject (statusCode : Nat) : Bool :=
  statusCode = 486 || statusCode = 503 || statusCode = 600

/-- The catch block replays the busy tone when the error message looks busy-like. -/
def errorLooksBusy (msg : String) : Bool :=
  strIncludes msg "Busy" || strIncludes msg "Unavailable" ||
  strIncludes msg "503" || strIncludes msg "486"

/-- formatError on a plain Error: keeps a non-empty message, else a generic one. -/
def formatErrorMessage (msg : String) : String :=
  if msg = "" then "An error occurred" else msg

instance {e a : Type} [DecidableEq e] [DecidableEq a] : DecidableEq (Except e a) :=
  fun x y =>
    match x, y with
    | .error u, .error v =>
      if h : u = v then .isTrue (h ▸ rfl)
      else .isFalse (fun hh => h (Except.error.inj hh))
    | .ok u, .ok v =>
      if h : u = v then .isTrue (h ▸ rfl)
      else .isFalse (fun hh => h (Except.ok.inj hh))
    | .error _, .ok _ => .isFalse (fun hh => Except.noConfusion hh)
    | .ok _, .error _ => .isFalse (fun hh => Except.noConfusion hh)

structure MakeCallOutcome where
  tones : Tones
  recordingStarted : Bool
  result : Except String Bool
deriving DecidableEq

/-- makeCall on an INVITE that receives a final rejection: the ringback tone is
started, onReject stops all tones (busy tone for 486/503/600), the rejection is
classified, and the stored rejection is re-thrown into the catch block, which
stops tones again, replays the busy tone for busy-like messages, and throws the
formatted error. Recording is only started in onCallEstablished, which a
rejected session never reaches. -/
def makeCallRejected (tones : Tones) (statusCode : Nat) (reasonPhrase : String) :
    MakeCallOutcome :=
  let phrase := if reasonPhrase = "" then "Unknown error" else reasonPhrase
  let t1 := playRingbackTone tones
  let t2 := stopAllTones t1
  let t3 := if busyToneOnReject statusCode then playBusyTone t2 else t2
  let reason := rejectionReason statusCode phrase
  let t4 := stopAllTones t3
  let t5 := if errorLooksBusy reason then playBusyTone t4 else t4
  { tones := t5, recordingStarted := false,
    result := .error (formatErrorMessage reason) }

/-! ## Transfer coordinator (transferCall / attendedTransfer and their delegates) -/

structure TransferAccept where
  complete : Option Bool
  eventTime : Option Nat
  disposition : String
deriving DecidableEq

structure TransferRecord where
  kind : String
  toExt : String
  transferTime : Nat
  disposition : String
  dispositionTime : Nat
  accept : TransferAccept
deriving DecidableEq

structure SessionData where
  transfer : List TransferRecord
  terminateby : Option String
  reasonCode : Option Nat
  reasonText : Option String
deriving DecidableEq

inductive SessionState
  | Initial
  | Establishing
  | Established
  | Terminating
  | Terminated
deriving DecidableEq

structure SipSession where
  state : SessionState
  data : SessionData
deriving DecidableEq

/-- extension.replace matching every hash sign, as in the transfer target build. -/
def escapeHash (s : String) : String :=
  String.join (s.toList.map fun c => if c = '#' then "%23" else String.singleton c)

/-- The REFER target URI string built by transferCall and attendedTransfer. -/
def transferTargetOf (host extension : String) : String :=
  "sip:" ++ escapeHash extension ++ "@" ++ host

/-- The TransferRecord pushed by transferCall. -/
def blindRecord (extension : String) (now : Nat) : TransferRecord :=
  { kind := "Blind", toExt := extension, transferTime := now, disposition := "refer",
    dispositionTime := now,
    accept := { complete := none, eventTime := none, disposition := "" } }

/-- The TransferRecord pushed by attendedTransfer. -/
def attendedRecord (extension : String) (now : Nat) : TransferRecord :=
  { kind := "Attended", toExt := extension, transferTime := now, disposition := "invite",
    dispositionTime := now,
    accept := { complete := none, eventTime := none, disposition := "" } }

structure ReferAttempt where
  target : String
deriving DecidableEq

/-- In-place update of the record at one index of the transfer array,
as `session.data.transfer[transferId].field = value` does. -/
def updateTransferAt : List TransferRecord → Nat → (TransferRecord → TransferRecord) →
    List TransferRecord
  | [], _, _ => []
  | r :: rs, 0, f => f r :: rs
  | r :: rs, n + 1, f => r :: updateTransferAt rs n f

/-- transferCall up to issuing the REFER: requires a current session in state
Established, appends one Blind TransferRecord, and attempts a REFER toward
`sip:` + escaped extension + `@` + host. There is no validation of the
extension itself. Returns the updated session, the refer attempt, and the
record's index. -/
def transferCall (host : String) (sess : Option SipSession) (extension : String)
    (now : Nat) : Except String (SipSession × ReferAttempt × Nat) :=
  match sess with
  | none => .error "No active call to transfer"
  | some s =>
    if s.state = .Established then
      let s2 := { s with data :=
        { s.data with transfer := s.data.transfer ++ [blindRecord extension now] } }
      .ok (s2, { target := transferTargetOf host extension }, s2.data.transfer.length - 1)
    else
      .error "Call must be established to transfer"

/-- transferCall's requestDelegate.onAccept: records terminateby/reason on the
session, marks the attempt's record complete with the response's reason phrase
and event time, and sends a bye on the original session (the returned Bool). -/
def transferOnAccept (s : SipSession) (transferId : Nat) (reasonPhrase : String)
    (now : Nat) : SipSession × Bool :=
  let d1 := { s.data with terminateby := some "us", reasonCode := some 202,
                          reasonText := some "Transfer" }
  let updated := updateTransferAt d1.transfer transferId
    (fun r => { r with accept := { complete := some true, disposition := reasonPhrase,
                                   eventTime := some now } })
  let d2 := { d1 with transfer := updated }
  ({ s with data := d2 }, true)

/-- transferCall's requestDelegate.onReject: marks the attempt's record not
complete; no bye is sent (the returned Bool) and nothing else changes. -/
def transferOnReject (s : SipSession) (transferId : Nat) (reasonPhrase : String)
    (now : Nat) : SipSession × Bool :=
  let updated := updateTransferAt s.data.transfer transferId
    (fun r => { r with accept := { complete := some false, disposition := reasonPhrase,
                                   eventTime := some now } })
  let d2 := { s.data with transfer := updated }
  ({ s with data := d2 }, false)

/-- attendedTransfer up to sending the consultation INVITE: same preconditions as
transferCall, appends one Attended TransferRecord. -/
def attendedTransfer (host : String) (sess : Option SipSession) (extension : String)
    (now : Nat) : Except String (SipSession × ReferAttempt × Nat) :=
  match sess with
  | none => .error "No active call to transfer"
  | some s =>
    if s.state = .Established then
      let s2 := { s with data :=
        { s.data with transfer := s.data.transfer ++ [attendedRecord extension now] } }
      .ok (s2, { target := transferTargetOf host extension }, s2.data.transfer.length - 1)
    else
      .error "Call must be established to transfer"

/-- attendedTransfer's delegate callbacks (onTrying/onProgress/onAccept/onReject
of the consultation INVITE and onBye of the consultation leg) all rewrite the
disposition and dispositionTime of the attempt's record in place. -/
def attendedOnDisposition (s : SipSession) (transferId : Nat) (d : String)
    (now : Nat) : SipSession :=
  let updated := updateTransferAt s.data.transfer transferId
    (fun r => { r with disposition := d, dispositionTime := now })
  { s with data := { s.data with transfer := updated } }

/-! ## Hold and resume (holdCall / resumeCall) -/

structure MediaTrack where
  trackId : Nat
  kind : String
  enabled : Bool
  isMixedTrack : Bool
deriving DecidableEq

structure PeerConnection where
  receivers : List MediaTrack
  senders : List MediaTrack
deriving DecidableEq

/-- The session fields holdCall and resumeCall touch. `isOnHold` is a dynamic
field on the SIP.js session object: absent (`none`) until first written. -/
structure HoldSession where
  isOnHold : Option Bool
  pc : PeerConnection
  audioSourceTrack : Option MediaTrack
  holdEvents : List String
deriving DecidableEq

def setEnabled (b : Bool) (t : MediaTrack) : MediaTrack := { t with enabled := b }

/-- The sender loop of holdCall/resumeCall onAccept: audio and video sender
tracks get `enabled := b`; other kinds are untouched. -/
def applySendersEnabled (b : Bool) (senders : List MediaTrack) : List MediaTrack :=
  senders.map fun t =>
    if t.kind = "audio" then setEnabled b t
    else if t.kind = "video" then setEnabled b t
    else t

/-- Whether some audio sender carries the IsMixedTrack mark, which makes the
onAccept handlers also flip session.data.AudioSourceTrack. -/
def mixedAudioSenderExists (senders : List MediaTrack) : Bool :=
  senders.any fun t => t.kind = "audio" && t.isMixedTrack

/-- The AudioSourceTrack side effect of the sender loop. -/
def applySourceEnabled (b : Bool) (senders : List MediaTrack)
    (src : Option MediaTrack) : Option MediaTrack :=
  match src with
  | none => none
  | some a =>
    if mixedAudioSenderExists senders && (a.kind = "audio" : Bool) then
      some (setEnabled b a)
    else some a

inductive ReinviteOutcome
  | accepted
  | rejected
  | errored (msg : String)
deriving DecidableEq

/-- holdCall's onAccept: disable every receiver track, disable audio/video sender
tracks (and the mixed audio source), set isOnHold, log the hold event. -/
def holdCallAccept (s : HoldSession) : HoldSession :=
  { isOnHold := some true,
    pc := { receivers := s.pc.receivers.map (setEnabled false),
            senders := applySendersEnabled false s.pc.senders },
    audioSourceTrack := applySourceEnabled false s.pc.senders s.audioSourceTrack,
    holdEvents := s.holdEvents ++ ["hold"] }

/-- resumeCall's onAccept: re-enable every receiver track and every audio/video
sender track (and the mixed audio source), clear isOnHold, log the unhold event. -/
def resumeCallAccept (s : HoldSession) : HoldSession :=
  { isOnHold := some false,
    pc := { receivers := s.pc.receivers.map (setEnabled true),
            senders := applySendersEnabled true s.pc.senders },
    audioSourceTrack := applySourceEnabled true s.pc.senders s.audioSourceTrack,
    holdEvents := s.holdEvents ++ ["unhold"] }

/-- holdCall with the re-INVITE resolving as `outcome`: throws without a session,
no-op when already on hold, otherwise sets isOnHold optimistically, and on
rejection (onReject plus the catch block) or on any error resets isOnHold to
false and reports an error. -/
def holdCall (sess : Option HoldSession) (outcome : ReinviteOutcome) :
    Option HoldSession × Except String Bool :=
  match sess with
  | none => (none, .error "No active call to hold")
  | some s =>
    if s.isOnHold = some true then (some s, .ok true)
    else
      let s1 := { s with isOnHold := some true }
      match outcome with
      | .accepted => (some (holdCallAccept s1), .ok true)
      | .rejected =>
        (some { s1 with isOnHold := some false }, .error "Failed to put call on hold")
      | .errored msg => (some { s1 with isOnHold := some false }, .error msg)

/-- resumeCall with the re-INVITE resolving as `outcome`: throws without a
session, no-op when not on hold, otherwise clears isOnHold optimistically, and
on rejection or error resets isOnHold to true and reports an error. -/
def resumeCall (sess : Option HoldSession) (outcome : ReinviteOutcome) :
    Option HoldSession × Except String Bool :=
  match sess with
  | none => (none, .error "No active call to resume")
  | some s =>
    if s.isOnHold = some false then (some s, .ok true)
    else
      let s1 := { s with isOnHold := some false }
      match outcome with
      | .accepted => (some (resumeCallAccept s1), .ok true)
      | .rejected =>
        (some { s1 with isOnHold := some true }, .error "Failed to take call off hold")
      | .errored msg => (some { s1 with isOnHold := some true }, .error msg)

/-! ## Concrete sessions and helpers used by the theorems -/

/-- A freshly established session with an empty transfer log. -/
def estabSession : SipSession :=
  { state := .Established,
    data := { transfer := [], terminateby := none, reasonCode := none,
              reasonText := none } }

/-- The session shape transferCall produces: one Blind record appended. -/
def appendBlind (s : SipSession) (extension : String) (now : Nat) : SipSession :=
  { s with data :=
      { s.data with transfer := s.data.transfer ++ [blindRecord extension now] } }

/-- The session shape attendedTransfer produces: one Attended record appended. -/
def appendAttended (s : SipSession) (extension : String) (now : Nat) : SipSession :=
  { s with data :=
      { s.data with transfer := s.data.transfer ++ [attendedRecord extension now] } }

/-- An enabled audio track that is not a mixed track. -/
def liveTrack (i : Nat) (k : String) : MediaTrack :=
  { trackId := i, kind := k, enabled := true, isMixedTrack := false }

/-- A session whose hold flag is boolean false (not held). -/
def unheldSession : HoldSession :=
  { isOnHold := some false,
    pc := { receivers := [liveTrack 1 "audio"], senders := [liveTrack 2 "audio"] },
    audioSourceTrack := none, holdEvents := [] }

/-- A session whose hold flag is boolean true (held). -/
def heldSession : HoldSession :=
  { isOnHold := some true,
    pc := { receivers := [liveTrack 1 "audio"], senders := [liveTrack 2 "audio"] },
    audioSourceTrack := none, holdEvents := [] }

/-! ## Theorems -/

lemma playingCount_applyToneOp_le_one (t : Tones) (op : ToneOp) :
    playingCount (applyToneOp t op) ≤ 1 := by
  cases op <;>
    simp [applyToneOp, playRingbackTone, playBusyTone, playRingTone, stopAllTones,
          playingCount]

lemma playingCount_applyToneOps_le_one (ops : List ToneOp) :
    ∀ t : Tones, playingCount t ≤ 1 → playingCount (applyToneOps t ops) ≤ 1 := by
  induction ops with
  | nil => intro t h; simpa [applyToneOps] using h
  | cons op rest ih =>
    intro t _
    have h2 := ih (applyToneOp t op) (playingCount_applyToneOp_le_one t op)
    simpa [applyToneOps, List.foldl_cons] using h2

/-- C10: at most one indicator tone is active at a time. Each of
playRingbackTone, playBusyTone and playRingTone first invokes stopAllTones, so
starting any tone pauses the other two and resets their playback position to
zero, and after any sequence of play/stop operations from the initial state no
two of the three tones are playing simultaneously. -/
theorem tones_mutually_exclusive :
    (∀ ops : List ToneOp, playingCount (applyToneOps initTones ops) ≤ 1) ∧
    (∀ t : Tones,
      (playRingbackTone t).busyTone = pausedTone ∧
      (playRingbackTone t).ringTone = pausedTone ∧
      (playBusyTone t).ringbackTone = pausedTone ∧
      (playBusyTone t).ringTone = pausedTone ∧
      (playRingTone t).ringbackTone = pausedTone ∧
      (playRingTone t).busyTone = pausedTone) :=
  ⟨fun ops => playingCount_applyToneOps_le_one ops initTones (by decide),
   fun _ => ⟨rfl, rfl, rfl, rfl, rfl, rfl⟩⟩

/-- C9: for every retryable error, the k-th retry (1 ≤ k ≤ maxRetries = 3) is
scheduled after retryDelay * 2 ^ (k - 1) = 1000 * 2 ^ (k - 1) ms, and once
retryCount has reached maxRetries no further retry is scheduled and the counter
is reset. -/
theorem retry_exponential_backoff_bounded (k : Nat) (h1 : 1 ≤ k) (h2 : k ≤ 3) :
    (scheduleRetry (scheduleRetryIter initRetryState (k - 1))).2
        = some (1000 * 2 ^ (k - 1)) ∧
    (scheduleRetryIter initRetryState 3).retryCount = 3 ∧
    (scheduleRetry (scheduleRetryIter initRetryState 3)).2 = none ∧
    (scheduleRetry (scheduleRetryIter initRetryState 3)).1.retryCount = 0 := by
  interval_cases k <;> exact ⟨by decide, by decide, by decide, by decide⟩

theorem retry_exponential_backoff_bounded_witness :
    (scheduleRetry (scheduleRetryIter initRetryState (2 - 1))).2
        = some (1000 * 2 ^ (2 - 1)) :=
  (retry_exponential_backoff_bounded 2 (by decide) (by decide)).1

/-- C2: when the upload request actually goes out and fails (network error or
non-OK response), saveRecording leaves recordedChunks intact, clears
recordingSaving in the finally block, and leaves recordingSaved false. -/
theorem failed_upload_preserves_chunks (s : RecState)
    (hreq : (saveRecording s .fail).2 = true) :
    (saveRecording s .fail).1.recordedChunks = s.recordedChunks ∧
    (saveRecording s .fail).1.recordingSaving = false ∧
    (saveRecording s .fail).1.recordingSaved = false := by
  by_cases h1 : (s.recordingSaved || s.recordingSaving) = true
  · simp [saveRecording, h1] at hreq
  · by_cases h2 : s.recordedChunks.isEmpty = true
    · simp [saveRecording, h1, h2] at hreq
    · have hsaved : s.recordingSaved = false := by
        cases hs : s.recordingSaved
        · rfl
        · exact absurd (by simp [hs]) h1
      have hsaving : s.recordingSaving = false := by
        cases hs : s.recordingSaving
        · rfl
        · exact absurd (by simp [hs]) h1
      simp [saveRecording, h2, hsaved, hsaving]

theorem failed_upload_preserves_chunks_witness :
    (saveRecording ⟨false, false, [7]⟩ .fail).1.recordedChunks = [7] ∧
    (saveRecording ⟨false, false, [7]⟩ .fail).1.recordingSaving = false ∧
    (saveRecording ⟨false, false, [7]⟩ .fail).1.recordingSaved = false :=
  failed_upload_preserves_chunks ⟨false, false, [7]⟩ (by decide)

lemma uploadInv_init : uploadInv initUploadSys := ⟨rfl, rfl, fun _ => rfl⟩

lemma uploadInv_step {s s2 : UploadSys} (hinv : uploadInv s)
    (hstep : UploadStep false s s2) : uploadInv s2 := by
  obtain ⟨hif, hsu, hsv⟩ := hinv
  cases hstep with
  | callSave h1 h2 h3 =>
    refine ⟨?_, ?_, ?_⟩ <;> simp_all
  | callSaveGuarded h => exact ⟨hif, hsu, hsv⟩
  | fetchOk h =>
    have hsvt : s.recordingSaving = true := by
      cases hs : s.recordingSaving
      · rw [hs] at hif; simp at hif; omega
      · rfl
    have hsd : s.recordingSaved = false := by
      cases hd : s.recordingSaved
      · rfl
      · have hcontra := hsv hd
        rw [hcontra] at hsvt
        simp at hsvt
    refine ⟨?_, ?_, ?_⟩ <;> simp_all
  | fetchFail h =>
    have hsvt : s.recordingSaving = true := by
      cases hs : s.recordingSaving
      · rw [hs] at hif; simp at hif; omega
      · rfl
    have hsd : s.recordingSaved = false := by
      cases hd : s.recordingSaved
      · rfl
      · have hcontra := hsv hd
        rw [hcontra] at hsvt
        simp at hsvt
    refine ⟨?_, ?_, ?_⟩ <;> simp_all
  | chunk sz h => exact ⟨hif, hsu, hsv⟩
  | resetAfterSave h => exact Bool.noConfusion h

lemma uploadInv_reachable {s : UploadSys} (h : UploadReachable false s) :
    uploadInv s := by
  induction h with
  | init => exact uploadInv_init
  | step _ hstep ih => exact uploadInv_step ih hstep

/-- C1 counterexample: two POSTs of the same recorded chunks both succeed in one
call session. The trace mirrors this schedule: a chunk is buffered; hangup's
stopRecording stops the recorder; the onstop handler calls saveRecording, whose
POST succeeds (recordingSaved becomes true); the onstop completion handler then
resets recordingSaved and recordingSaving to false while recordedChunks is
never cleared; the later Terminated-driven stopRecording finds the recorder
inactive with chunks still present, calls saveRecording directly, both guard
flags are false again, and a second POST of the same chunks succeeds. -/
theorem upload_twice_reachable :
    UploadReachable true ⟨true, false, [5], 0, 2⟩ ∧
    (⟨true, false, [5], 0, 2⟩ : UploadSys).successfulUploads = 2 := by
  refine ⟨?_, rfl⟩
  have h0 : UploadReachable true initUploadSys := UploadReachable.init
  have h1 : UploadReachable true ⟨false, false, [5], 0, 0⟩ :=
    h0.step (UploadStep.chunk _ 5 (by decide))
  have h2 : UploadReachable true ⟨false, true, [5], 1, 0⟩ :=
    h1.step (UploadStep.callSave _ rfl rfl (by decide))
  have h3 : UploadReachable true ⟨true, false, [5], 0, 1⟩ :=
    h2.step (UploadStep.fetchOk _ (by decide))
  have h4 : UploadReachable true ⟨false, false, [5], 0, 1⟩ :=
    h3.step (UploadStep.resetAfterSave _ rfl)
  have h5 : UploadReachable true ⟨false, true, [5], 1, 1⟩ :=
    h4.step (UploadStep.callSave _ rfl rfl (by decide))
  exact h5.step (UploadStep.fetchOk _ (by decide))

/-- C1 amended: saveRecording returns without issuing any network request when
recordingSaved or recordingSaving is set, the saving flag is raised atomically
before the POST and a successful response raises the saved flag; these guards
bound the session to at most one successful POST in every execution in which
the onstop completion handler's flag reset does not occur. The reset — which
clears both flags after the awaited saveRecording settles while recordedChunks
is never cleared — breaks the guarantee: a later stopRecording can re-upload
the same chunks, so at most one successful upload per call session is not
guaranteed by the program. -/
theorem at_most_one_upload_without_reset :
    (∀ (s : RecState) (outcome : FetchOutcome),
        (s.recordingSaved || s.recordingSaving) = true →
        saveRecording s outcome = (s, false)) ∧
    (∀ s : UploadSys, UploadReachable false s → s.successfulUploads ≤ 1) := by
  constructor
  · intro s outcome h
    simp [saveRecording, h]
  · intro s h
    obtain ⟨_, hsu, _⟩ := uploadInv_reachable h
    rw [hsu]
    split <;> decide

lemma uploadReachable_example : UploadReachable false ⟨true, false, [5], 0, 1⟩ := by
  have h0 : UploadReachable false initUploadSys := UploadReachable.init
  have h1 : UploadReachable false ⟨false, false, [5], 0, 0⟩ :=
    h0.step (UploadStep.chunk _ 5 (by decide))
  have h2 : UploadReachable false ⟨false, true, [5], 1, 0⟩ :=
    h1.step (UploadStep.callSave _ rfl rfl (by decide))
  exact h2.step (UploadStep.fetchOk _ (by decide))

theorem at_most_one_upload_without_reset_witness :
    saveRecording ⟨true, false, [5]⟩ .ok = (⟨true, false, [5]⟩, false) ∧
    (⟨true, false, [5], 0, 1⟩ : UploadSys).successfulUploads ≤ 1 :=
  ⟨at_most_one_upload_without_reset.1 ⟨true, false, [5]⟩ .ok (by decide),
   at_most_one_upload_without_reset.2 _ uploadReachable_example⟩


lemma ringback_off_after (t3 : Tones) (b : Bool) :
    (if b = true then playBusyTone (stopAllTones t3)
     else stopAllTones t3).ringbackTone.playing = false := by
  cases b <;> rfl

/-- C5 counterexample: the code classifies a final 486 as the message
"Busy Here", not "Busy" as the scenario states. -/
theorem final486_reason_not_busy :
    (makeCallRejected initTones 486 "Busy Here").result = .error "Busy Here" ∧
    ("Busy Here" : String) ≠ "Busy" := by
  exact ⟨rfl, by decide⟩

/-- C5 amended: on a final rejection makeCall stops the ringback tone, starts
no recording, and fails with the reason classified from the status code — 486
is "Busy Here", 404 "Not Found", 408 "Request Timeout", 503
"Service Unavailable", 480 "Temporarily Unavailable", otherwise the response's
reason phrase. -/
theorem rejected_invite_classified (t : Tones) (statusCode : Nat) (phrase : String) :
    (makeCallRejected t statusCode phrase).tones.ringbackTone.playing = false ∧
    (makeCallRejected t statusCode phrase).recordingStarted = false ∧
    (makeCallRejected t statusCode phrase).result =
      .error (formatErrorMessage (rejectionReason statusCode
        (if phrase = "" then "Unknown error" else phrase))) ∧
    rejectionReason 486 phrase = "Busy Here" ∧
    rejectionReason 404 phrase = "Not Found" ∧
    rejectionReason 408 phrase = "Request Timeout" ∧
    rejectionReason 503 phrase = "Service Unavailable" ∧
    rejectionReason 480 phrase = "Temporarily Unavailable" ∧
    (statusCode ≠ 503 → statusCode ≠ 486 → statusCode ≠ 404 → statusCode ≠ 408 →
      statusCode ≠ 480 → rejectionReason statusCode phrase = phrase) := by
  refine ⟨ringback_off_after _ _, rfl, rfl, ?_, ?_, ?_, ?_, ?_, ?_⟩
  · norm_num [rejectionReason]
  · norm_num [rejectionReason]
  · norm_num [rejectionReason]
  · norm_num [rejectionReason]
  · norm_num [rejectionReason]
  · intro h1 h2 h3 h4 h5
    simp [rejectionReason, h1, h2, h3, h4, h5]

theorem rejected_invite_classified_witness :
    (makeCallRejected initTones 600 "Decline").tones.ringbackTone.playing = false ∧
    rejectionReason 600 "Decline" = "Decline" :=
  ⟨(rejected_invite_classified initTones 600 "Decline").1,
   (rejected_invite_classified initTones 600 "Decline").2.2.2.2.2.2.2.2
     (by decide) (by decide) (by decide) (by decide) (by decide)⟩

/-- C6 counterexample: transferCall on an Established session with an empty
extension is not rejected as a validation error — it appends a transfer
record and attempts a REFER toward "sip:@" plus the domain. -/
theorem empty_transfer_target_not_validated :
    transferCall "pbx.example.com" (some estabSession) "" 0 =
      .ok ({ estabSession with data :=
               { estabSession.data with transfer := [blindRecord "" 0] } },
           { target := "sip:@pbx.example.com" }, 0) := by
  rfl

/-- C6 amended: transferCall validates the session client-side — it throws when
there is no current session or its state is not Established, so no transfer
can be requested from Ringing; holding, however, only sets the session's
isOnHold flag and never changes its state, so a held call still has state
Established, passes this guard, and can be transferred. Hash signs in the
target are escaped as %23 in the SIP URI; the target extension itself is not
validated: an empty extension is not rejected, the REFER is still attempted. -/
theorem transfer_session_preconditions (host extension : String) (now : Nat)
    (s : SipSession) (hns : s.state ≠ .Established) :
    transferCall host none extension now = .error "No active call to transfer" ∧
    transferCall host (some s) extension now =
      .error "Call must be established to transfer" ∧
    (∀ t2 : SipSession, t2.state = .Established →
      transferCall host (some t2) extension now =
        .ok (appendBlind t2 extension now,
             { target := "sip:" ++ escapeHash extension ++ "@" ++ host },
             t2.data.transfer.length)) ∧
    escapeHash "12#4" = "12%234" := by
  refine ⟨rfl, ?_, ?_, by decide⟩
  · simp [transferCall, hns]
  · intro t2 ht
    simp [transferCall, ht, appendBlind, transferTargetOf]

theorem transfer_session_preconditions_witness :
    transferCall "pbx.example.com" none "2002" 0 =
      .error "No active call to transfer" ∧
    transferCall "pbx.example.com" (some { estabSession with state := .Establishing })
      "2002" 0 = .error "Call must be established to transfer" :=
  ⟨(transfer_session_preconditions "pbx.example.com" "2002" 0
      { estabSession with state := .Establishing } (by decide)).1,
   (transfer_session_preconditions "pbx.example.com" "2002" 0
      { estabSession with state := .Establishing } (by decide)).2.1⟩


lemma updateTransferAt_append (l : List TransferRecord) (r : TransferRecord)
    (f : TransferRecord → TransferRecord) :
    updateTransferAt (l ++ [r]) l.length f = l ++ [f r] := by
  induction l with
  | nil => rfl
  | cons a t ih => simp [updateTransferAt, ih]

lemma updateTransferAt_length (l : List TransferRecord) (i : Nat)
    (f : TransferRecord → TransferRecord) :
    (updateTransferAt l i f).length = l.length := by
  induction l generalizing i with
  | nil => rfl
  | cons a t ih => cases i <;> simp [updateTransferAt, ih]

lemma updateTransferAt_getD_ne (l : List TransferRecord) (i j : Nat)
    (f : TransferRecord → TransferRecord) (h : j ≠ i) (d : TransferRecord) :
    (updateTransferAt l i f).getD j d = l.getD j d := by
  induction l generalizing i j with
  | nil => rfl
  | cons a t ih =>
    cases i with
    | zero =>
      cases j with
      | zero => exact absurd rfl h
      | succ j2 => simp [updateTransferAt, List.getD_cons_succ]
    | succ i2 =>
      cases j with
      | zero => simp [updateTransferAt, List.getD_cons_zero]
      | succ j2 =>
        simp only [updateTransferAt, List.getD_cons_succ]
        exact ih i2 j2 (fun hh => h (by rw [hh]))

/-- C7: when a blind transfer REFER is accepted, the record appended for the
attempt is marked completed (accept.complete = true, disposition and event time
recorded), the session is marked terminated-by-us with reason Transfer, and a
bye is sent; when it is rejected, the record is marked not completed, no bye is
sent, and the session's state and termination fields are untouched. -/
theorem blind_transfer_dispositions (host ext phrase : String) (now now2 : Nat)
    (s : SipSession) (hs : s.state = .Established) :
    transferCall host (some s) ext now =
      .ok (appendBlind s ext now, { target := transferTargetOf host ext },
           s.data.transfer.length) ∧
    (transferOnAccept (appendBlind s ext now) s.data.transfer.length phrase now2).1.data.transfer
      = s.data.transfer ++
        [{ blindRecord ext now with
             accept := { complete := some true, eventTime := some now2,
                         disposition := phrase } }] ∧
    (transferOnAccept (appendBlind s ext now) s.data.transfer.length phrase now2).2 = true ∧
    (transferOnAccept (appendBlind s ext now) s.data.transfer.length phrase now2).1.data.terminateby
      = some "us" ∧
    (transferOnReject (appendBlind s ext now) s.data.transfer.length phrase now2).1.data.transfer
      = s.data.transfer ++
        [{ blindRecord ext now with
             accept := { complete := some false, eventTime := some now2,
                         disposition := phrase } }] ∧
    (transferOnReject (appendBlind s ext now) s.data.transfer.length phrase now2).2 = false ∧
    (transferOnReject (appendBlind s ext now) s.data.transfer.length phrase now2).1.state
      = s.state ∧
    (transferOnReject (appendBlind s ext now) s.data.transfer.length phrase now2).1.data.terminateby
      = s.data.terminateby := by
  refine ⟨?_, ?_, rfl, rfl, ?_, rfl, rfl, rfl⟩
  · simp [transferCall, hs, appendBlind]
  · simp [transferOnAccept, appendBlind, updateTransferAt_append]
  · simp [transferOnReject, appendBlind, updateTransferAt_append]

theorem blind_transfer_dispositions_witness :
    (transferOnAccept (appendBlind estabSession "2002" 3) 0 "Accepted" 7).2 = true ∧
    (transferOnReject (appendBlind estabSession "2002" 3) 0 "Accepted" 7).2 = false :=
  ⟨(blind_transfer_dispositions "pbx.example.com" "2002" "Accepted" 3 7
      estabSession rfl).2.2.1,
   (blind_transfer_dispositions "pbx.example.com" "2002" "Accepted" 3 7
      estabSession rfl).2.2.2.2.2.1⟩

/-- C8 counterexample: transfer records are mutated in place. The single record
appended by a blind transfer is rewritten by the attempt's onAccept callback
(accept.complete changes from null to true) without any append, so a
previously appended record does not stay unmodified. -/
theorem transfer_record_mutated_in_place :
    (appendBlind estabSession "2002" 0).data.transfer = [blindRecord "2002" 0] ∧
    (transferOnAccept (appendBlind estabSession "2002" 0) 0 "Accepted" 7).1.data.transfer =
      [{ blindRecord "2002" 0 with
           accept := { complete := some true, eventTime := some 7,
                       disposition := "Accepted" } }] ∧
    ({ blindRecord "2002" 0 with
         accept := { complete := some true, eventTime := some 7,
                     disposition := "Accepted" } } : TransferRecord) ≠
      blindRecord "2002" 0 := by
  refine ⟨rfl, rfl, by decide⟩

/-- C8 amended: the transfer log grows append-only — each blind or attended
attempt appends exactly one record, preserving all existing records — and the
disposition callbacks of an attempt rewrite only that attempt's record in
place: they never change the log's length and never touch a record at a
different index. -/
theorem transfer_log_append_only (host ext phrase d2 : String) (now now2 : Nat)
    (s t : SipSession) (hs : s.state = .Established) (tid j : Nat) (hj : j ≠ tid)
    (dflt : TransferRecord) :
    transferCall host (some s) ext now =
      .ok (appendBlind s ext now, { target := transferTargetOf host ext },
           s.data.transfer.length) ∧
    (appendBlind s ext now).data.transfer = s.data.transfer ++ [blindRecord ext now] ∧
    attendedTransfer host (some s) ext now =
      .ok (appendAttended s ext now, { target := transferTargetOf host ext },
           s.data.transfer.length) ∧
    (appendAttended s ext now).data.transfer
      = s.data.transfer ++ [attendedRecord ext now] ∧
    (transferOnAccept t tid phrase now2).1.data.transfer.length
      = t.data.transfer.length ∧
    (transferOnAccept t tid phrase now2).1.data.transfer.getD j dflt
      = t.data.transfer.getD j dflt ∧
    (transferOnReject t tid phrase now2).1.data.transfer.length
      = t.data.transfer.length ∧
    (transferOnReject t tid phrase now2).1.data.transfer.getD j dflt
      = t.data.transfer.getD j dflt ∧
    (attendedOnDisposition t tid d2 now2).data.transfer.length
      = t.data.transfer.length ∧
    (attendedOnDisposition t tid d2 now2).data.transfer.getD j dflt
      = t.data.transfer.getD j dflt := by
  refine ⟨?_, rfl, ?_, rfl, ?_, ?_, ?_, ?_, ?_, ?_⟩
  · simp [transferCall, hs, appendBlind]
  · simp [attendedTransfer, hs, appendAttended]
  · exact updateTransferAt_length t.data.transfer tid _
  · exact updateTransferAt_getD_ne t.data.transfer tid j _ hj dflt
  · exact updateTransferAt_length t.data.transfer tid _
  · exact updateTransferAt_getD_ne t.data.transfer tid j _ hj dflt
  · exact updateTransferAt_length t.data.transfer tid _
  · exact updateTransferAt_getD_ne t.data.transfer tid j _ hj dflt

theorem transfer_log_append_only_witness :
    transferCall "pbx.example.com" (some estabSession) "2002" 0 =
      .ok (appendBlind estabSession "2002" 0,
           { target := transferTargetOf "pbx.example.com" "2002" }, 0) ∧
    (transferOnAccept (appendBlind estabSession "2002" 0) 0 "Accepted" 7).1.data.transfer.getD
        1 (blindRecord "" 0)
      = (appendBlind estabSession "2002" 0).data.transfer.getD 1 (blindRecord "" 0) :=
  ⟨(transfer_log_append_only "pbx.example.com" "2002" "Accepted" "trying" 0 7
      estabSession (appendBlind estabSession "2002" 0) rfl 0 1 (by decide)
      (blindRecord "" 0)).1,
   (transfer_log_append_only "pbx.example.com" "2002" "Accepted" "trying" 0 7
      estabSession (appendBlind estabSession "2002" 0) rfl 0 1 (by decide)
      (blindRecord "" 0)).2.2.2.2.2.1⟩


/-- C3: a rejected or errored hold/resume re-negotiation leaves the session's
held flag unchanged from before the attempt: holdCall's rejection and error
paths reset isOnHold to false (its pre-attempt value), resumeCall's reset it to
true (its pre-attempt value), and in every case an error is reported. -/
theorem rejected_renegotiation_rolls_back (sh sr : HoldSession) (msg : String)
    (hh : sh.isOnHold = some false) (hr : sr.isOnHold = some true) :
    holdCall (some sh) .rejected = (some sh, .error "Failed to put call on hold") ∧
    holdCall (some sh) (.errored msg) = (some sh, .error msg) ∧
    resumeCall (some sr) .rejected =
      (some sr, .error "Failed to take call off hold") ∧
    resumeCall (some sr) (.errored msg) = (some sr, .error msg) := by
  obtain ⟨a1, pc1, src1, ev1⟩ := sh
  obtain ⟨a2, pc2, src2, ev2⟩ := sr
  change a1 = some false at hh
  change a2 = some true at hr
  subst hh
  subst hr
  exact ⟨rfl, rfl, rfl, rfl⟩

theorem rejected_renegotiation_rolls_back_witness :
    holdCall (some unheldSession) .rejected =
      (some unheldSession, .error "Failed to put call on hold") ∧
    resumeCall (some heldSession) .rejected =
      (some heldSession, .error "Failed to take call off hold") :=
  ⟨(rejected_renegotiation_rolls_back unheldSession heldSession "x" rfl rfl).1,
   (rejected_renegotiation_rolls_back unheldSession heldSession "x" rfl rfl).2.2.1⟩

lemma setEnabled_true_of_enabled (t : MediaTrack) (h : t.enabled = true) :
    setEnabled true t = t := by
  obtain ⟨i, k, e, m⟩ := t
  change e = true at h
  subst h
  rfl

lemma map_setEnabled_comp (l : List MediaTrack) :
    (l.map (setEnabled false)).map (setEnabled true) = l.map (setEnabled true) := by
  rw [List.map_map]
  rfl

lemma map_setEnabled_true_id (l : List MediaTrack) (h : ∀ t ∈ l, t.enabled = true) :
    l.map (setEnabled true) = l := by
  induction l with
  | nil => rfl
  | cons a t ih =>
    have ha := setEnabled_true_of_enabled a (h a (List.mem_cons_self a t))
    simp [List.map_cons, ha, ih (fun x hx => h x (List.mem_cons_of_mem a hx))]

lemma senderStep_comp (t : MediaTrack) :
    (fun x : MediaTrack =>
      if x.kind = "audio" then setEnabled true x
      else if x.kind = "video" then setEnabled true x else x)
    ((fun x : MediaTrack =>
      if x.kind = "audio" then setEnabled false x
      else if x.kind = "video" then setEnabled false x else x) t)
    = (if t.kind = "audio" then setEnabled true t
       else if t.kind = "video" then setEnabled true t else t) := by
  by_cases h1 : t.kind = "audio"
  · simp [h1, setEnabled]
  · by_cases h2 : t.kind = "video" <;> simp [h1, h2, setEnabled]

lemma applySendersEnabled_comp (l : List MediaTrack) :
    applySendersEnabled true (applySendersEnabled false l) =
      applySendersEnabled true l := by
  unfold applySendersEnabled
  rw [List.map_map]
  exact List.map_congr_left (fun t _ => by simpa [Function.comp] using senderStep_comp t)

lemma applySendersEnabled_true_id (l : List MediaTrack)
    (h : ∀ t ∈ l, t.enabled = true) : applySendersEnabled true l = l := by
  unfold applySendersEnabled
  induction l with
  | nil => rfl
  | cons a t ih =>
    have ha := setEnabled_true_of_enabled a (h a (List.mem_cons_self a t))
    have ht := ih (fun x hx => h x (List.mem_cons_of_mem a hx))
    by_cases h1 : a.kind = "audio"
    · simp [List.map_cons, h1, ha, ht]
    · by_cases h2 : a.kind = "video" <;> simp [List.map_cons, h1, h2, ha, ht]

lemma mixed_preserved (l : List MediaTrack) (b : Bool) :
    mixedAudioSenderExists (applySendersEnabled b l) = mixedAudioSenderExists l := by
  unfold mixedAudioSenderExists applySendersEnabled
  induction l with
  | nil => rfl
  | cons a t ih =>
    simp only [List.map_cons, List.any_cons]
    rw [ih]
    by_cases h1 : a.kind = "audio"
    · simp [h1, setEnabled]
    · by_cases h2 : a.kind = "video" <;> simp [h1, h2, setEnabled]

lemma source_round_trip (snd : List MediaTrack) (src : Option MediaTrack)
    (hsrc : ∀ a : MediaTrack, src = some a → a.enabled = true) :
    applySourceEnabled true (applySendersEnabled false snd)
      (applySourceEnabled false snd src) = src := by
  cases src with
  | none => rfl
  | some a =>
    have ha := hsrc a rfl
    by_cases hm : (mixedAudioSenderExists snd && (a.kind = "audio" : Bool)) = true
    · have hcond : (mixedAudioSenderExists (applySendersEnabled false snd) &&
          ((setEnabled false a).kind = "audio" : Bool)) = true := by
        simpa [mixed_preserved, setEnabled] using hm
      have hstep : setEnabled true (setEnabled false a) = a :=
        setEnabled_true_of_enabled a ha
      simp [applySourceEnabled, hm, hcond, hstep]
    · have hcond : ¬(mixedAudioSenderExists (applySendersEnabled false snd) &&
          (a.kind = "audio" : Bool)) = true := by
        simpa [mixed_preserved] using hm
      simp [applySourceEnabled, hm, hcond]

/-- C4: hold followed by a successful resume is a round trip. Starting from an
established session (held flag false, all tracks enabled), after holdCall's
re-INVITE is accepted and then resumeCall's re-INVITE is accepted, the held
flag is false again and the peer connection's receivers and senders are exactly
the pre-hold tracks, all re-enabled — no residual hold-music track as the
outbound source; only the hold event log differs. -/
theorem hold_resume_round_trip (s : HoldSession)
    (hflag : s.isOnHold = some false)
    (hrecv : ∀ t ∈ s.pc.receivers, t.enabled = true)
    (hsend : ∀ t ∈ s.pc.senders, t.enabled = true)
    (hsrc : ∀ a : MediaTrack, s.audioSourceTrack = some a → a.enabled = true) :
    ∃ mid : HoldSession,
      holdCall (some s) .accepted = (some mid, .ok true) ∧
      mid.isOnHold = some true ∧
      resumeCall (some mid) .accepted =
        (some { s with holdEvents := s.holdEvents ++ ["hold", "unhold"] },
         .ok true) := by
  have hrc : (s.pc.receivers.map (setEnabled false)).map (setEnabled true)
      = s.pc.receivers := by
    rw [map_setEnabled_comp, map_setEnabled_true_id _ hrecv]
  have hsd : applySendersEnabled true (applySendersEnabled false s.pc.senders)
      = s.pc.senders := by
    rw [applySendersEnabled_comp, applySendersEnabled_true_id _ hsend]
  have hsc := source_round_trip s.pc.senders s.audioSourceTrack hsrc
  have hfinal :
      resumeCallAccept
        { holdCallAccept { s with isOnHold := some true } with isOnHold := some false }
        = { s with holdEvents := s.holdEvents ++ ["hold", "unhold"] } := by
    simp [resumeCallAccept, holdCallAccept, hrc, hsd, hsc, hflag]
  refine ⟨holdCallAccept { s with isOnHold := some true }, ?_, rfl, ?_⟩
  · simp [holdCall, hflag]
  · have hmid : (holdCallAccept { s with isOnHold := some true }).isOnHold
        = some true := rfl
    simp only [resumeCall, hmid, Option.some.injEq, Bool.true_eq_false, if_false,
               reduceCtorEq, ite_false]
    simp [hfinal]

theorem hold_resume_round_trip_witness :
    ∃ mid : HoldSession,
      holdCall (some unheldSession) .accepted = (some mid, .ok true) ∧
      mid.isOnHold = some true ∧
      resumeCall (some mid) .accepted =
        (some { unheldSession with holdEvents := ["hold", "unhold"] }, .ok true) :=
  hold_resume_round_trip unheldSession rfl (by decide) (by decide)
    (by intro a h; simp [unheldSession] at h)

end Voip
